import Mathlib

/-!
Shallow embedding of the "OOP Text Battle" game (source files
`character.py` and `healthbar.py`).

Python objects become Lean structures; in-place mutation becomes explicit
state passing (a method that mutates an object returns the object's new
state).  Python `int` is modelled as `Int`.  The float expression
`round(current_value / max_value * length)` in `HealthBar.draw` is
modelled with exact rational arithmetic and round-half-to-even, which is
Python's rounding rule for `round` and agrees with the float computation
on the inputs the claims engage.  Printed output is returned as `String`
data where a claim depends on it.
-/

/-- Modelled from the spec: the file `weapon.py` (the `Weapon` class and the
shared `fists` instance) is not under `src/`; only its import in
`character.py` is.  The spec describes a weapon as an immutable record
`name : string`, `damage : integer`, shared by reference.  The `id` field
models Python reference identity: two distinct weapon objects get distinct
ids, so equality of `Weapon` values is reference identity, strictly finer
than name equality. -/
structure Weapon where
  id : Nat
  name : String
  damage : Int
deriving DecidableEq, Repr

/-- Modelled from the spec: the shared default "fists" weapon instance
(damage 5 per the spec's Scenario 1). -/
def fists : Weapon := { id := 0, name := "fists", damage := 5 }

/-- State of a `HealthBar` object.  The Python object also holds a
back-reference `self.entity` to the observed character; since the character
in turn holds the bar, that cyclic reference is modelled by passing the
entity explicitly to `update` and `draw`. -/
structure HealthBar where
  length : Int
  max_value : Int
  current_value : Int
  is_colored : Bool
  color : String
deriving DecidableEq, Repr

/-- The class-level `colors` dict of `HealthBar`, as an association list in
source order. -/
def colors : List (String × String) :=
  [("red", "\x1b[91m"),
   ("purple", "\x1b[95m"),
   ("blue", "\x1b[94m"),
   ("blue2", "\x1b[96m"),
   ("blue3", "\x1b[94m"),
   ("green", "\x1b[92m"),
   ("green2", "\x1b[92m"),
   ("yellow", "\x1b[93m"),
   ("gray", "\x1b[90m"),
   ("default", "\x1b[0m")]

/-- `self.colors.get(color) or self.colors["default"]` from
`HealthBar.__init__`: a missing key yields `None` (falsy), and an empty
string would also be falsy under Python `or`; either way the `"default"`
entry `"\x1b[0m"` is used. -/
def resolveColor (name : String) : String :=
  match colors.lookup name with
  | some c => if c = "" then "\x1b[0m" else c
  | none => "\x1b[0m"

/-- `HealthBar.__init__(entity, length=20, is_colored=True, color="green")`.
It reads `entity.health_max` and `entity.health`; those two fields are
passed explicitly (the bar is constructed while the character is being
constructed).  Callers supply the Python default arguments explicitly. -/
def mkHealthBar (entityHealth entityHealthMax : Int) (length : Int)
    (is_colored : Bool) (color : String) : HealthBar :=
  { length := length
    max_value := entityHealthMax
    current_value := entityHealth
    is_colored := is_colored
    color := resolveColor color }

/-- Class-level constant `symbol_remaining` ("Full Block"). -/
def symbol_remaining : String := "█"

/-- Class-level constant `symbol_lost` ("Empty Block"). -/
def symbol_lost : String := "░"

/-- Class-level constant `barrier` ("Vertical Line"). -/
def barrier : String := "│"

/-- Python's string repetition `n * s`: a non-positive count yields the
empty string. -/
def strRepeat (n : Int) (s : String) : String :=
  String.join (List.replicate n.toNat s)

/-- Python's built-in `round` on the exact value: round half to even
(banker's rounding). -/
def roundHalfEven (q : ℚ) : ℤ :=
  let n := ⌊q⌋
  let frac := q - n
  if frac < 1 / 2 then n
  else if 1 / 2 < frac then n + 1
  else if n % 2 = 0 then n else n + 1

/-- `remaining_bars = round(self.current_value / self.max_value * self.length)`
from `HealthBar.draw` (local variable of the method). -/
def remainingBars (hb : HealthBar) : Int :=
  roundHalfEven ((hb.current_value : ℚ) / (hb.max_value : ℚ) * (hb.length : ℚ))

/-- `lost_bars = self.length - remaining_bars` from `HealthBar.draw`. -/
def lostBars (hb : HealthBar) : Int :=
  hb.length - remainingBars hb

/-- State of a `Character` object (base class fields plus the `health_bar`
attribute that both subclasses attach). -/
structure Character where
  name : String
  health : Int
  health_max : Int
  weapon : Weapon
  health_bar : HealthBar
deriving DecidableEq, Repr

/-- `HealthBar.update`: `self.current_value = self.entity.health`.  The
observed entity is passed explicitly; the returned bar is the mutated
`self`. -/
def HealthBar.update (hb : HealthBar) (entity : Character) : HealthBar :=
  { hb with current_value := entity.health }

/-- `HealthBar.draw`: returns the two printed lines.  The first line is the
header `f"{self.entity.name}'s Health: {self.entity.health}/{self.entity.health_max}"`
(note: it reads the entity's live `health`, not the snapshot); the second
line is the glyph bar computed from the snapshot fields. -/
def HealthBar.draw (hb : HealthBar) (entity : Character) : String × String :=
  let remaining_bars := remainingBars hb
  let lost_bars := lostBars hb
  (entity.name ++ "\x27s Health: " ++ toString entity.health ++ "/"
      ++ toString entity.health_max,
   barrier
     ++ (if hb.is_colored then hb.color else "")
     ++ strRepeat remaining_bars symbol_remaining
     ++ strRepeat lost_bars symbol_lost
     ++ (if hb.is_colored then "\x1b[0m" else "")
     ++ barrier)

/-- `Character.attack(self, target)`: mutates `target.health` (subtract the
attacker's weapon damage, clamp at 0) and then calls
`target.health_bar.update()`.  The result is the pair of the final states
of `self` and `target` (the method writes no attribute of `self`; the
print statement produces no state change).  Attacker and target are
modelled as distinct objects. -/
def Character.attack (self target : Character) : Character × Character :=
  let t1 := { target with health := target.health - self.weapon.damage }
  let t2 := { t1 with health := max t1.health 0 }
  let t3 := { t2 with health_bar := t2.health_bar.update t2 }
  (self, t3)

/-- State of a `Hero` object: the base `Character` fields plus
`default_weapon`. -/
structure Hero where
  name : String
  health : Int
  health_max : Int
  weapon : Weapon
  default_weapon : Weapon
  health_bar : HealthBar
deriving DecidableEq, Repr

/-- `Hero.__init__(name, health)`: the base constructor sets
`weapon = fists`; then `default_weapon = self.weapon` and
`health_bar = HealthBar(self, color="green")` (Python defaults
`length=20`, `is_colored=True`). -/
def mkHero (name : String) (health : Int) : Hero :=
  { name := name
    health := health
    health_max := health
    weapon := fists
    default_weapon := fists
    health_bar := mkHealthBar health health 20 true "green" }

/-- `Hero.equip(weapon)`: `self.weapon = weapon` (plus a print). -/
def Hero.equip (h : Hero) (w : Weapon) : Hero :=
  { h with weapon := w }

/-- `Hero.drop()`: `self.weapon = self.default_weapon` (plus a print naming
the dropped weapon). -/
def Hero.drop (h : Hero) : Hero :=
  { h with weapon := h.default_weapon }

/-- `Enemy.__init__(name, health, weapon)`: the base constructor runs, then
`self.weapon = weapon` and `health_bar = HealthBar(self, color="red")`. -/
def mkEnemy (name : String) (health : Int) (weapon : Weapon) : Character :=
  { name := name
    health := health
    health_max := health
    weapon := weapon
    health_bar := mkHealthBar health health 20 true "red" }

/-! ### Concrete objects used by counterexamples and witnesses -/

/-- A weapon object whose `damage` is negative (Python never validates
damage, so such an object is constructible). -/
def cursedIdol : Weapon := { id := 7, name := "cursed idol", damage := -5 }

/-- An attacker wielding the negative-damage weapon. -/
def cAtkNeg : Character :=
  { name := "N", health := 10, health_max := 10, weapon := cursedIdol
    health_bar := mkHealthBar 10 10 20 true "red" }

/-- A target at full health (health = health_max = 10). -/
def cTgtNeg : Character :=
  { name := "T", health := 10, health_max := 10, weapon := fists
    health_bar := mkHealthBar 10 10 20 true "green" }

/-- An attacker with an ordinary non-negative-damage weapon. -/
def wAtk : Character := mkEnemy "Goblin" 30 { id := 3, name := "Club", damage := 5 }

/-- A target with the health invariant holding. -/
def wTgt : Character := mkEnemy "Dummy" 10 fists

/-- A health-bar snapshot taken when the entity had health 10 of 10. -/
def snapBar : HealthBar := mkHealthBar 10 10 20 true "green"

/-- An entity state with live health 10. -/
def liveA : Character :=
  { name := "Aria", health := 10, health_max := 10, weapon := fists
    health_bar := snapBar }

/-- The same entity after its live health dropped to 5 (snapshot fields,
name and health_max unchanged). -/
def liveB : Character :=
  { name := "Aria", health := 5, health_max := 10, weapon := fists
    health_bar := snapBar }

/-! ### Helper lemmas -/

/-- `roundHalfEven` is the identity on integers. -/
theorem roundHalfEven_intCast (n : ℤ) : roundHalfEven (n : ℚ) = n := by
  simp [roundHalfEven, Int.floor_intCast]

/-- `Hero.equip` never writes `default_weapon`, so folding any list of
equips leaves it unchanged. -/
theorem foldl_equip_default_weapon (ws : List Weapon) (h : Hero) :
    (ws.foldl Hero.equip h).default_weapon = h.default_weapon := by
  induction ws generalizing h with
  | nil => rfl
  | cons w ws ih => exact ih (h.equip w)

/-! ### Claim theorems -/

/-- C1: for every attacker and target, `attack` sets the target's health to
`max(target.health - attacker.weapon.damage, 0)` and resynchronizes the
target's health-bar snapshot to that clamped value. -/
theorem attack_clamps_and_syncs_bar (a t : Character) :
    ((a.attack t).2).health = max (t.health - a.weapon.damage) 0 ∧
    ((a.attack t).2).health_bar.current_value = ((a.attack t).2).health :=
  ⟨rfl, rfl⟩

/-- C2 counterexample: with a negative-damage weapon the health invariant
`0 ≤ health ≤ health_max` is not preserved by `attack`: a full-health
target ends with health 15 > health_max = 10. -/
theorem attack_invariant_counterexample :
    (0 ≤ cTgtNeg.health ∧ cTgtNeg.health ≤ cTgtNeg.health_max) ∧
    ¬ (0 ≤ ((cAtkNeg.attack cTgtNeg).2).health ∧
        ((cAtkNeg.attack cTgtNeg).2).health ≤ ((cAtkNeg.attack cTgtNeg).2).health_max) := by
  decide

/-- C2 (amended): when the attacker's weapon damage is non-negative,
`attack` preserves the target's invariant `0 ≤ health ≤ health_max`. -/
theorem attack_preserves_health_invariant (a t : Character)
    (hd : 0 ≤ a.weapon.damage) (h0 : 0 ≤ t.health) (h1 : t.health ≤ t.health_max) :
    0 ≤ ((a.attack t).2).health ∧ ((a.attack t).2).health ≤ ((a.attack t).2).health_max := by
  show 0 ≤ max (t.health - a.weapon.damage) 0 ∧
      max (t.health - a.weapon.damage) 0 ≤ t.health_max
  exact ⟨le_max_right _ _, max_le (by omega) (by omega)⟩

/-- Witness for C2 (amended) at a concrete attacker (damage 5) and a
concrete full-health target. -/
theorem attack_preserves_health_invariant_witness :
    (0 ≤ wAtk.weapon.damage ∧ 0 ≤ wTgt.health ∧ wTgt.health ≤ wTgt.health_max) ∧
    (0 ≤ ((wAtk.attack wTgt).2).health ∧
      ((wAtk.attack wTgt).2).health ≤ ((wAtk.attack wTgt).2).health_max) :=
  ⟨⟨by decide, by decide, by decide⟩,
    attack_preserves_health_invariant wAtk wTgt (by decide) (by decide) (by decide)⟩

/-- C3: for a valid snapshot (`0 ≤ current_value ≤ max_value`,
`max_value > 0`, `length > 0`) the glyph counts of `draw` satisfy
`remaining + lost = length`, are full at full health and empty at zero
health. -/
theorem draw_glyph_counts (hb : HealthBar)
    (h0 : 0 ≤ hb.current_value) (h1 : hb.current_value ≤ hb.max_value)
    (h2 : 0 < hb.max_value) (h3 : 0 < hb.length) :
    remainingBars hb + lostBars hb = hb.length ∧
    (hb.current_value = hb.max_value → remainingBars hb = hb.length) ∧
    (hb.current_value = 0 → remainingBars hb = 0) := by
  refine ⟨by simp [lostBars], ?_, ?_⟩
  · intro he
    have hm : (hb.max_value : ℚ) ≠ 0 := by
      exact_mod_cast h2.ne'
    have : ((hb.current_value : ℚ) / (hb.max_value : ℚ) * (hb.length : ℚ))
        = ((hb.length : ℤ) : ℚ) := by
      rw [he]
      field_simp
    rw [remainingBars, this, roundHalfEven_intCast]
  · intro he
    have : ((hb.current_value : ℚ) / (hb.max_value : ℚ) * (hb.length : ℚ))
        = ((0 : ℤ) : ℚ) := by
      rw [he]
      simp
    rw [remainingBars, this, roundHalfEven_intCast]

/-- Witness for C3 at a concrete full-health bar (30/30, length 20). -/
theorem draw_glyph_counts_witness :
    (0 ≤ (mkHealthBar 30 30 20 true "green").current_value ∧
      (mkHealthBar 30 30 20 true "green").current_value ≤ (mkHealthBar 30 30 20 true "green").max_value ∧
      0 < (mkHealthBar 30 30 20 true "green").max_value ∧
      0 < (mkHealthBar 30 30 20 true "green").length) ∧
    (remainingBars (mkHealthBar 30 30 20 true "green") + lostBars (mkHealthBar 30 30 20 true "green")
        = (mkHealthBar 30 30 20 true "green").length ∧
      ((mkHealthBar 30 30 20 true "green").current_value = (mkHealthBar 30 30 20 true "green").max_value →
        remainingBars (mkHealthBar 30 30 20 true "green") = (mkHealthBar 30 30 20 true "green").length) ∧
      ((mkHealthBar 30 30 20 true "green").current_value = 0 →
        remainingBars (mkHealthBar 30 30 20 true "green") = 0)) :=
  ⟨⟨by decide, by decide, by decide, by decide⟩,
    draw_glyph_counts (mkHealthBar 30 30 20 true "green")
      (by decide) (by decide) (by decide) (by decide)⟩

/-- C4: after `update`, the snapshot's `current_value` equals the observed
entity's health, for every bar and every entity state. -/
theorem update_syncs_current_value (hb : HealthBar) (c : Character) :
    (hb.update c).current_value = c.health :=
  rfl

/-- C5 counterexample: two entity states (`liveA`, `liveB`) agreeing on the
snapshot, name and health_max but differing in live health make `draw`
produce different output (the header line reads the entity's live health),
with no `update` in between. -/
theorem draw_reads_live_health_counterexample :
    HealthBar.draw snapBar liveA ≠ HealthBar.draw snapBar liveB :=
  fun h => absurd (congrArg Prod.fst h) (by decide)

/-- C5 (amended): the glyph-bar line of `draw` is computed only from the
snapshot and the bar's fixed configuration — it is identical for any two
states of the observed entity, with no `update` in between; only the
header line additionally reads the entity's live name, health and
health_max. -/
theorem draw_bar_line_snapshot_only (hb : HealthBar) (c c' : Character) :
    (hb.draw c).2 = (hb.draw c').2 :=
  rfl

/-- C6: after any finite sequence of equips, a single `drop` restores
exactly the weapon value (including its identity) the hero held at
construction. -/
theorem drop_restores_construction_weapon (name : String) (health : Int)
    (ws : List Weapon) :
    ((ws.foldl Hero.equip (mkHero name health)).drop).weapon
      = (mkHero name health).weapon := by
  show (ws.foldl Hero.equip (mkHero name health)).default_weapon
      = (mkHero name health).weapon
  rw [foldl_equip_default_weapon]
  rfl

/-- C7: `update` is idempotent — a second `update` with no intervening
change to the entity leaves the bar (in particular `current_value`)
exactly as after the first. -/
theorem update_idempotent (hb : HealthBar) (c : Character) :
    ((hb.update c).update c).current_value = (hb.update c).current_value ∧
    (hb.update c).update c = hb.update c :=
  ⟨rfl, rfl⟩

/-- C8: `draw` computes `remaining = round(current/max*length)` with
round-half-to-even and `lost = length - remaining`; concretely 25/30 at
length 20 gives 17 remaining and 3 lost, and the tie 1/2 at length 5
rounds to the even value 2 (not 3). -/
theorem draw_rounding_rule :
    (∀ hb : HealthBar,
      remainingBars hb
          = roundHalfEven ((hb.current_value : ℚ) / (hb.max_value : ℚ) * (hb.length : ℚ)) ∧
        lostBars hb = hb.length - remainingBars hb) ∧
    remainingBars (mkHealthBar 25 30 20 true "green") = 17 ∧
    lostBars (mkHealthBar 25 30 20 true "green") = 3 ∧
    roundHalfEven ((1 : ℚ) / 2 * 5) = 2 := by
  have h17 : remainingBars (mkHealthBar 25 30 20 true "green") = 17 := by
    have hq : (((25 : ℤ) : ℚ) / ((30 : ℤ) : ℚ) * ((20 : ℤ) : ℚ)) = (25 : ℚ) / 30 * 20 := by
      norm_num
    have hf : ⌊((25 : ℚ) / 30 * 20)⌋ = 16 := by
      rw [Int.floor_eq_iff]
      constructor
      · norm_num
      · norm_num
    show roundHalfEven (((25 : ℤ) : ℚ) / ((30 : ℤ) : ℚ) * ((20 : ℤ) : ℚ)) = 17
    rw [hq]
    unfold roundHalfEven
    rw [hf]
    norm_num
  refine ⟨fun hb => ⟨rfl, rfl⟩, h17, ?_, ?_⟩
  · show (mkHealthBar 25 30 20 true "green").length
        - remainingBars (mkHealthBar 25 30 20 true "green") = 3
    rw [h17]
    rfl
  · have hf : ⌊((1 : ℚ) / 2 * 5)⌋ = 2 := by
      rw [Int.floor_eq_iff]
      constructor
      · norm_num
      · norm_num
    unfold roundHalfEven
    rw [hf]
    norm_num

/-- C9: the resolved color is the palette entry for each of the ten
palette names, and the `"default"` entry for every other name. -/
theorem resolve_color_palette :
    (resolveColor "red" = "\x1b[91m" ∧ resolveColor "purple" = "\x1b[95m" ∧
      resolveColor "blue" = "\x1b[94m" ∧ resolveColor "blue2" = "\x1b[96m" ∧
      resolveColor "blue3" = "\x1b[94m" ∧ resolveColor "green" = "\x1b[92m" ∧
      resolveColor "green2" = "\x1b[92m" ∧ resolveColor "yellow" = "\x1b[93m" ∧
      resolveColor "gray" = "\x1b[90m" ∧ resolveColor "default" = "\x1b[0m") ∧
    ∀ s : String,
      s ∉ ["red", "purple", "blue", "blue2", "blue3", "green", "green2",
            "yellow", "gray", "default"] →
      resolveColor s = "\x1b[0m" := by
  refine ⟨by decide, ?_⟩
  intro s hs
  simp only [List.mem_cons, List.not_mem_nil, not_or, or_false] at hs
  obtain ⟨h1, h2, h3, h4, h5, h6, h7, h8, h9, h10⟩ := hs
  have e1 : (s == "red") = false := beq_eq_false_iff_ne.mpr h1
  have e2 : (s == "purple") = false := beq_eq_false_iff_ne.mpr h2
  have e3 : (s == "blue") = false := beq_eq_false_iff_ne.mpr h3
  have e4 : (s == "blue2") = false := beq_eq_false_iff_ne.mpr h4
  have e5 : (s == "blue3") = false := beq_eq_false_iff_ne.mpr h5
  have e6 : (s == "green") = false := beq_eq_false_iff_ne.mpr h6
  have e7 : (s == "green2") = false := beq_eq_false_iff_ne.mpr h7
  have e8 : (s == "yellow") = false := beq_eq_false_iff_ne.mpr h8
  have e9 : (s == "gray") = false := beq_eq_false_iff_ne.mpr h9
  have e10 : (s == "default") = false := beq_eq_false_iff_ne.mpr h10
  simp [resolveColor, colors, List.lookup, e1, e2, e3, e4, e5, e6, e7, e8, e9, e10]

/-- Witness for C9's fallback clause at the unrecognized name "magenta". -/
theorem resolve_color_palette_witness :
    ("magenta" ∉ ["red", "purple", "blue", "blue2", "blue3", "green", "green2",
        "yellow", "gray", "default"]) ∧
    resolveColor "magenta" = "\x1b[0m" :=
  ⟨by decide, resolve_color_palette.2 "magenta" (by decide)⟩

/-- C10: `attack` modifies nothing but the target's health and its bar's
`current_value`: the attacker's state and the target's name, health_max,
weapon and remaining bar fields are unchanged. -/
theorem attack_frame (a t : Character) :
    (a.attack t).1 = a ∧
    ((a.attack t).2).name = t.name ∧
    ((a.attack t).2).health_max = t.health_max ∧
    ((a.attack t).2).weapon = t.weapon ∧
    ((a.attack t).2).health_bar.length = t.health_bar.length ∧
    ((a.attack t).2).health_bar.max_value = t.health_bar.max_value ∧
    ((a.attack t).2).health_bar.is_colored = t.health_bar.is_colored ∧
    ((a.attack t).2).health_bar.color = t.health_bar.color :=
  ⟨rfl, rfl, rfl, rfl, rfl, rfl, rfl, rfl⟩
